import Mathlib

/-!
Verification development for the generator suspend/resume core of the Nova
ECMAScript runtime (nova_vm).

The embedding follows
`src/nova_vm/src/ecmascript/builtins/control_abstraction_objects/generator_objects.rs`
(data model, `Generator::resume`, `Generator::resume_throw`, the
`HeapMarkAndSweep` implementations) and
`src/nova_vm/src/ecmascript/syntax_directed_operations/function_definitions.rs`
(`evaluate_generator_body`).

External collaborators of the core (the bytecode VM, the compiler, ordinary
objects, execution contexts) are deliberately out of scope of the fragment and
are modelled as opaque tokens and as a pure VM oracle, following the contracts
stated for them: the VM entry points
`execute(executable, args)`, `vm.resume(executable, value)` and
`vm.resume_throw(executable, value)` each run the bytecode to the next
suspension point or to termination and report a four-variant
`ExecutionResult`; the net effect of such a run on the execution-context stack
of the agent is nil (single-threaded cooperative model), so the oracle is a
pure function from its inputs to an `ExecutionResult`.

Rust panics (`unwrap`, `unreachable`, out-of-bounds arena indexing) are
modelled as `none`: a `none` outcome is a fatal abort of the runtime.
-/

namespace Nova

/-- Abstraction of the external `Value` enum: the core only ever constructs
`Value::Undefined` and passes other values through opaquely. -/
inductive Value where
  | undefined
  | mk (n : Nat)
deriving DecidableEq

/-- Opaque token for the external `SuspendedVm` (serialised VM activation). -/
structure SuspendedVm where
  id : Nat
deriving DecidableEq

/-- Opaque token for the external `Executable` (compiled bytecode). -/
structure Executable where
  id : Nat
deriving DecidableEq

/-- Opaque token for the external `ExecutionContext` (captured frame). -/
structure ExecutionContext where
  id : Nat
deriving DecidableEq

/-- Opaque token for the external `OrdinaryObject` (backing object). -/
structure OrdinaryObject where
  id : Nat
deriving DecidableEq

/-- The `JsError` values the dispatcher produces: `JsError::new(value)` wraps
a thrown value verbatim; `throw_exception_with_static_message` with
`ExceptionType::TypeError` allocates a TypeError carrying a static message. -/
inductive JsError where
  | thrown (v : Value)
  | typeError (msg : String)
deriving DecidableEq

/-- `ExecutionResult` (engine module): the four-variant VM outcome contract. -/
inductive ExecutionResult where
  | Return (v : Value)
  | Throw (e : JsError)
  | Yield (vm : SuspendedVm) (yielded_value : Value)
  | Await (vm : SuspendedVm) (awaited_value : Value)
deriving DecidableEq

/-- The only objects the dispatcher returns are iterator results built by the
external helper `create_iter_result_object(agent, value, done)`. -/
inductive Object where
  | iterResult (value : Value) (done : Bool)
deriving DecidableEq

/-- Contract of `create_iter_result_object`: an ordinary object with the two
ECMA-262 properties `value` and `done`. -/
def create_iter_result_object (value : Value) (done : Bool) : Object :=
  Object.iterResult value done

deriving instance DecidableEq for Except

/-- `VmOrArguments` from generator_objects.rs: either a fully serialised VM
activation (suspended-yield) or the initial arguments list (suspended-start). -/
inductive VmOrArguments where
  | Vm (vm : SuspendedVm)
  | Arguments (args : List Value)
deriving DecidableEq

/-- `SuspendedGeneratorState` from generator_objects.rs. -/
structure SuspendedGeneratorState where
  vm_or_args : VmOrArguments
  executable : Executable
  execution_context : ExecutionContext
deriving DecidableEq

/-- `GeneratorState` from generator_objects.rs. SUSPENDED-START has
`vm_or_args` set to `Arguments`, SUSPENDED-YIELD has it set to `Vm`. -/
inductive GeneratorState where
  | Suspended (s : SuspendedGeneratorState)
  | Executing
  | Completed
deriving DecidableEq

/-- `GeneratorHeapData` from generator_objects.rs. -/
structure GeneratorHeapData where
  object_index : Option OrdinaryObject := none
  generator_state : Option GeneratorState := none
deriving DecidableEq

/-- A `Generator` handle is a compact index into the generators arena. -/
abbrev Generator := Nat

/-- The slice of the `Agent` the dispatcher reads and mutates: the generators
arena (a vector of optional slots) and the execution-context stack. -/
structure Agent where
  generators : List (Option GeneratorHeapData)
  execution_context_stack : List ExecutionContext
deriving DecidableEq

/-- The pure VM oracle: `Vm::execute`, `SuspendedVm::resume` and
`SuspendedVm::resume_throw` as functions of their inputs (see the module
docstring for why the oracle is pure). -/
structure VmOracle where
  execute : Executable → List Value → ExecutionResult
  resume : SuspendedVm → Executable → Value → ExecutionResult
  resumeThrow : SuspendedVm → Executable → Value → ExecutionResult

/-- Arena read `agent[generator]` (the `Index` impl): panics, modelled as
`none`, when the index is out of bounds or the slot is empty. -/
def Agent.getGen (agent : Agent) (g : Generator) : Option GeneratorHeapData :=
  match agent.generators[g]? with
  | some (some data) => some data
  | _ => none

/-- Arena write `agent[generator].generator_state = st` (the `IndexMut` impl
followed by a field store). On the paths where the source performs it the slot
is always occupied; an absent slot would be a Rust panic and here degrades the
slot to `none`. -/
def Agent.setGenState (agent : Agent) (g : Generator) (st : Option GeneratorState) :
    Agent :=
  { agent with
    generators :=
      agent.generators.set g
        (match agent.generators[g]? with
         | some (some data) => some { data with generator_state := st }
         | _ => none) }

/-- `agent.execution_context_stack.push(execution_context)`. -/
def Agent.pushCtx (agent : Agent) (execution_context : ExecutionContext) : Agent :=
  { agent with
    execution_context_stack := execution_context :: agent.execution_context_stack }

/-- Lines 100–119 of `Generator::resume`: replace the generator state with
`Executing`, extracting the suspended record (a mismatch is `unreachable!`,
modelled as `none`), and push the captured execution context onto the stack.
The `scope`/`get` round-trip of the generator handle is the identity here
because the embedding has no moving collector. -/
def Agent.enterExecuting (agent : Agent) (g : Generator) :
    Option (Agent × SuspendedGeneratorState) :=
  match agent.getGen g with
  | none => none
  | some data =>
    let old := data.generator_state
    let agent := agent.setGenState g (some GeneratorState.Executing)
    match old with
    | some (GeneratorState.Suspended s) => some (agent.pushCtx s.execution_context, s)
    | _ => none

/-- Lines 242–259 of `Generator::resume_throw`: the same swap-and-push, but
the `let`-`else` pattern additionally requires `vm_or_args` to be `Vm`. -/
def Agent.enterExecutingVm (agent : Agent) (g : Generator) :
    Option (Agent × SuspendedVm × Executable) :=
  match agent.getGen g with
  | none => none
  | some data =>
    let old := data.generator_state
    let agent := agent.setGenState g (some GeneratorState.Executing)
    match old with
    | some (GeneratorState.Suspended
        { vm_or_args := VmOrArguments.Vm vm, executable := executable,
          execution_context := execution_context }) =>
      some (agent.pushCtx execution_context, vm, executable)
    | _ => none

/-- Lines 124–129 of `Generator::resume`: dispatch on `vm_or_args`, starting
the VM from the entry point with the stored arguments for suspended-start and
resuming the suspended VM with the given value for suspended-yield. -/
def dispatchCall (o : VmOracle) (voa : VmOrArguments) (executable : Executable)
    (value : Value) : ExecutionResult :=
  match voa with
  | VmOrArguments.Arguments args => o.execute executable args
  | VmOrArguments.Vm vm => o.resume vm executable value

/-- Lines 131–196 of `Generator::resume` (identical to lines 266–305 of
`Generator::resume_throw`): pop the execution context back off the stack
(`unwrap` on an empty stack is a panic, `none`) and dispatch on the
`ExecutionResult`. `Await` is `unreachable!`, modelled as `none`. -/
def Agent.finishResume (agent : Agent) (g : Generator) (executable : Executable)
    (execution_result : ExecutionResult) : Option (Agent × Except JsError Object) :=
  match agent.execution_context_stack with
  | [] => none
  | execution_context :: rest =>
    let agent := { agent with execution_context_stack := rest }
    match execution_result with
    | ExecutionResult.Return result_value =>
      let agent := agent.setGenState g (some GeneratorState.Completed)
      some (agent, Except.ok (create_iter_result_object result_value true))
    | ExecutionResult.Throw err =>
      let agent := agent.setGenState g (some GeneratorState.Completed)
      some (agent, Except.error err)
    | ExecutionResult.Yield vm yielded_value =>
      let agent := agent.setGenState g
        (some (GeneratorState.Suspended
          { vm_or_args := VmOrArguments.Vm vm, executable := executable,
            execution_context := execution_context }))
      some (agent, Except.ok (create_iter_result_object yielded_value false))
    | ExecutionResult.Await _ _ => none

/-- `Generator::resume` (generator_objects.rs lines 70–197), the
GeneratorResume operation. The result pairs the final agent with the
`JsResult<Object>`; `none` is a fatal panic. -/
def Generator.resume (o : VmOracle) (g : Generator) (agent : Agent) (value : Value) :
    Option (Agent × Except JsError Object) :=
  match agent.getGen g with
  | none => none
  | some data =>
    match data.generator_state with
    | none => none
    | some GeneratorState.Executing =>
      some (agent, Except.error (JsError.typeError "The generator is currently running"))
    | some GeneratorState.Completed =>
      some (agent, Except.ok (create_iter_result_object Value.undefined true))
    | some (GeneratorState.Suspended _) =>
      match agent.enterExecuting g with
      | none => none
      | some (agent, s) =>
        let execution_result := dispatchCall o s.vm_or_args s.executable value
        agent.finishResume g s.executable execution_result

/-- `Generator::resume_throw` (generator_objects.rs lines 201–306), the
GeneratorResumeAbrupt operation restricted to throw completions. -/
def Generator.resume_throw (o : VmOracle) (g : Generator) (agent : Agent)
    (value : Value) : Option (Agent × Except JsError Object) :=
  match agent.getGen g with
  | none => none
  | some data =>
    match data.generator_state with
    | none => none
    | some (GeneratorState.Suspended
        { vm_or_args := VmOrArguments.Arguments _, .. }) =>
      some (agent.setGenState g (some GeneratorState.Completed),
        Except.error (JsError.thrown value))
    | some (GeneratorState.Suspended _) =>
      match agent.enterExecutingVm g with
      | none => none
      | some (agent, vm, executable) =>
        agent.finishResume g executable (o.resumeThrow vm executable value)
    | some GeneratorState.Executing =>
      some (agent, Except.error (JsError.typeError "The generator is currently running"))
    | some GeneratorState.Completed =>
      some (agent, Except.error (JsError.thrown value))

/-! ### Marking (`HeapMarkAndSweep`) -/

/-- The per-kind worklists of the marking phase (`WorkQueues`), restricted to
the kinds the generator data reaches. -/
structure WorkQueues where
  generators : List Generator := []
  vms : List SuspendedVm := []
  values : List Value := []
  executables : List Executable := []
  execution_contexts : List ExecutionContext := []
  objects : List OrdinaryObject := []
deriving DecidableEq

/-- Modelled from the spec: the external `OrdinaryObject::mark_values`
enqueues the backing object. -/
def OrdinaryObject.markValues (o : OrdinaryObject) (q : WorkQueues) : WorkQueues :=
  { q with objects := q.objects ++ [o] }

/-- `Option::mark_values`: mark the payload when present. -/
def markOptObject : Option OrdinaryObject → WorkQueues → WorkQueues
  | none, q => q
  | some o, q => o.markValues q

/-- Modelled from the spec: the external `Value::mark_values` enqueues the
value (its heap payload, when it has one). -/
def Value.markValues (v : Value) (q : WorkQueues) : WorkQueues :=
  { q with values := q.values ++ [v] }

/-- `args.as_ref().mark_values(queues)`: mark every value of the arguments
list in order. -/
def markArgs (args : List Value) (q : WorkQueues) : WorkQueues :=
  args.foldl (fun q v => v.markValues q) q

/-- Modelled from the spec: the external `SuspendedVm::mark_values` marks the
serialised activation (abstracted as enqueuing the VM record). -/
def SuspendedVm.markValues (vm : SuspendedVm) (q : WorkQueues) : WorkQueues :=
  { q with vms := q.vms ++ [vm] }

/-- Modelled from the spec: the external `Executable::mark_values`. -/
def Executable.markValues (e : Executable) (q : WorkQueues) : WorkQueues :=
  { q with executables := q.executables ++ [e] }

/-- Modelled from the spec: the external `ExecutionContext::mark_values`. -/
def ExecutionContext.markValues (c : ExecutionContext) (q : WorkQueues) : WorkQueues :=
  { q with execution_contexts := q.execution_contexts ++ [c] }

/-- `SuspendedGeneratorState::mark_values` (generator_objects.rs lines
453–466): mark the VM or the arguments depending on the tag, then the
executable, then the execution context. -/
def SuspendedGeneratorState.markValues (s : SuspendedGeneratorState)
    (q : WorkQueues) : WorkQueues :=
  let q := match s.vm_or_args with
    | VmOrArguments.Vm vm => vm.markValues q
    | VmOrArguments.Arguments args => markArgs args q
  s.execution_context.markValues (s.executable.markValues q)

/-- `GeneratorHeapData::mark_values` (generator_objects.rs lines 483–493):
mark the backing object, then the suspended record children only when the
state is `Suspended`. -/
def GeneratorHeapData.markValues (d : GeneratorHeapData) (q : WorkQueues) :
    WorkQueues :=
  let q := markOptObject d.object_index q
  match d.generator_state with
  | some (GeneratorState.Suspended s) => s.markValues q
  | _ => q

/-! ### Function-body entry (`evaluate_generator_body`) -/

/-- The `GeneratorState` shape used by function_definitions.rs: its line 315
constructs `GeneratorState::Suspended { vm: None, executable,
execution_context }`, a struct variant carrying an optional VM snapshot and no
arguments list. This shape does not exist in generator_objects.rs, whose
`GeneratorState.Suspended` carries a `SuspendedGeneratorState` with a
`vm_or_args` field; the two files are from different revisions of the state
type. -/
inductive FdGeneratorState where
  | Suspended (vm : Option SuspendedVm) (executable : Executable)
      (execution_context : ExecutionContext)
  | Executing
  | Completed
deriving DecidableEq

/-- The generator state written by `evaluate_generator_body`
(function_definitions.rs lines 315–319): `Suspended { vm: None, executable,
execution_context: agent.running_execution_context().clone() }`. The
invocation arguments list is in scope at that point (it was consumed only by
`function_declaration_instantiation`) and does not flow into the stored
state. -/
def evaluate_generator_body_state (executable : Executable)
    (running_execution_context : ExecutionContext)
    (arguments_list : List Value) : FdGeneratorState :=
  FdGeneratorState.Suspended none executable running_execution_context

/-! ### Call traces and the context-ownership invariant -/

/-- One external call into the dispatcher: which generator, which mode
(normal or throw), and the value passed. -/
structure GenCall where
  gen : Generator
  isThrow : Bool
  value : Value
deriving DecidableEq

/-- Run a sequence of `resume`/`resume_throw` calls, threading the agent;
a fatal panic (`none`) aborts the trace. -/
def runCalls (o : VmOracle) (agent : Agent) : List GenCall → Option Agent
  | [] => some agent
  | c :: rest =>
    match (if c.isThrow then Generator.resume_throw o c.gen agent c.value
           else Generator.resume o c.gen agent c.value) with
    | none => none
    | some (agent, _) => runCalls o agent rest

/-- The context-ownership invariant: the captured execution context of every
suspended generator record is not on the agent execution-context stack. -/
def ctxInvariant (agent : Agent) : Prop :=
  ∀ (g : Generator) (data : GeneratorHeapData) (s : SuspendedGeneratorState),
    agent.getGen g = some data →
    data.generator_state = some (GeneratorState.Suspended s) →
    s.execution_context ∉ agent.execution_context_stack

/-! ### Basic lemmas about the agent arena -/

theorem Agent.getGen_generators {agent : Agent} {g : Generator}
    {data : GeneratorHeapData} (h : agent.getGen g = some data) :
    agent.generators[g]? = some (some data) := by
  unfold Agent.getGen at h
  cases hx : agent.generators[g]? with
  | none => rw [hx] at h; cases h
  | some o =>
    cases o with
    | none => rw [hx] at h; cases h
    | some d => rw [hx] at h; injection h with h; rw [h]

theorem Agent.setGenState_stack (agent : Agent) (g : Generator)
    (st : Option GeneratorState) :
    (agent.setGenState g st).execution_context_stack =
      agent.execution_context_stack := rfl

theorem Agent.getGen_setGenState_self {agent : Agent} {g : Generator}
    {data : GeneratorHeapData} (st : Option GeneratorState)
    (h : agent.getGen g = some data) :
    (agent.setGenState g st).getGen g =
      some { data with generator_state := st } := by
  have hx := Agent.getGen_generators h
  unfold Agent.setGenState Agent.getGen
  simp only [hx, List.getElem?_set_self', Option.map_eq_map, Option.map_some,
    Function.const_apply]

theorem Agent.getGen_setGenState_ne {agent : Agent} {i g : Generator}
    (h : g ≠ i) (st : Option GeneratorState) :
    (agent.setGenState g st).getGen i = agent.getGen i := by
  unfold Agent.setGenState Agent.getGen
  simp only [List.getElem?_set_ne h]

theorem Agent.mk_generators_stack (agent : Agent) (g : Generator)
    (st : Option GeneratorState) :
    ({ generators := (agent.setGenState g st).generators,
       execution_context_stack := agent.execution_context_stack } : Agent) =
      agent.setGenState g st := rfl

theorem Agent.setGenState_setGenState {agent : Agent} {g : Generator}
    {data : GeneratorHeapData} (h : agent.getGen g = some data)
    (s1 s2 : Option GeneratorState) :
    (agent.setGenState g s1).setGenState g s2 = agent.setGenState g s2 := by
  have hx := Agent.getGen_generators h
  unfold Agent.setGenState
  simp only [hx, List.getElem?_set_self', Option.map_eq_map, Option.map_some,
    Function.const_apply, List.set_set]

/-! ### Concrete fixtures used by witnesses and counterexamples -/

def exe0 : Executable := ⟨0⟩

def ctx0 : ExecutionContext := ⟨0⟩

def vm0 : SuspendedVm := ⟨0⟩

/-- An oracle whose every run terminates normally with `undefined`. -/
def o0 : VmOracle where
  execute := fun _ _ => ExecutionResult.Return Value.undefined
  resume := fun _ _ _ => ExecutionResult.Return Value.undefined
  resumeThrow := fun _ _ _ => ExecutionResult.Return Value.undefined

/-- An oracle whose every run reports an `Await`. -/
def oAwait : VmOracle where
  execute := fun _ _ => ExecutionResult.Await ⟨5⟩ Value.undefined
  resume := fun _ _ _ => ExecutionResult.Await ⟨5⟩ Value.undefined
  resumeThrow := fun _ _ _ => ExecutionResult.Await ⟨5⟩ Value.undefined

/-- An oracle whose every run yields. -/
def oYield : VmOracle where
  execute := fun _ _ => ExecutionResult.Yield ⟨7⟩ (Value.mk 1)
  resume := fun _ _ _ => ExecutionResult.Yield ⟨7⟩ (Value.mk 1)
  resumeThrow := fun _ _ _ => ExecutionResult.Yield ⟨7⟩ (Value.mk 1)

def recStart : SuspendedGeneratorState :=
  { vm_or_args := VmOrArguments.Arguments [Value.mk 42], executable := exe0,
    execution_context := ctx0 }

def recYield : SuspendedGeneratorState :=
  { vm_or_args := VmOrArguments.Vm vm0, executable := exe0,
    execution_context := ctx0 }

def dataSuspStart : GeneratorHeapData :=
  { object_index := none,
    generator_state := some (GeneratorState.Suspended recStart) }

def dataSuspYield : GeneratorHeapData :=
  { object_index := none,
    generator_state := some (GeneratorState.Suspended recYield) }

def dataExec : GeneratorHeapData :=
  { object_index := none, generator_state := some GeneratorState.Executing }

def dataCompleted : GeneratorHeapData :=
  { object_index := none, generator_state := some GeneratorState.Completed }

def agentSuspStart : Agent :=
  { generators := [some dataSuspStart], execution_context_stack := [] }

def agentSuspYield : Agent :=
  { generators := [some dataSuspYield], execution_context_stack := [] }

def agentExec : Agent :=
  { generators := [some dataExec], execution_context_stack := [] }

def agentCompleted : Agent :=
  { generators := [some dataCompleted], execution_context_stack := [] }

/-! ### Claim theorems -/

/-- Claim C3: for every generator in the suspended-start state,
`resume_throw(agent, v)` sets the state to Completed, runs no bytecode (the
outcome does not depend on the VM oracle), and returns `v` as a thrown error;
a subsequent `resume` on the resulting agent then observes the Completed state
and returns the iterator result with value undefined and done true. -/
theorem claim3_resume_throw_suspended_start (o : VmOracle) (agent : Agent)
    (g : Generator) (data : GeneratorHeapData) (args : List Value)
    (exe : Executable) (ctx : ExecutionContext) (v : Value)
    (h1 : agent.getGen g = some data)
    (h2 : data.generator_state = some (GeneratorState.Suspended
      { vm_or_args := VmOrArguments.Arguments args, executable := exe,
        execution_context := ctx })) :
    Generator.resume_throw o g agent v =
      some (agent.setGenState g (some GeneratorState.Completed),
        Except.error (JsError.thrown v)) ∧
    (agent.setGenState g (some GeneratorState.Completed)).getGen g =
      some { data with generator_state := some GeneratorState.Completed } ∧
    (∀ o2 : VmOracle,
      Generator.resume_throw o2 g agent v = Generator.resume_throw o g agent v) ∧
    (∀ (o2 : VmOracle) (v2 : Value),
      Generator.resume o2 g (agent.setGenState g (some GeneratorState.Completed)) v2 =
        some (agent.setGenState g (some GeneratorState.Completed),
          Except.ok (create_iter_result_object Value.undefined true))) := by
  have hset := Agent.getGen_setGenState_self (some GeneratorState.Completed) h1
  refine ⟨?_, hset, ?_, ?_⟩
  · simp only [Generator.resume_throw, h1, h2]
  · intro o2
    simp only [Generator.resume_throw, h1, h2]
  · intro o2 v2
    simp only [Generator.resume, hset]

/-- Claim C3 witness. -/
theorem claim3_witness :
    Generator.resume_throw o0 0 agentSuspStart (Value.mk 3) =
      some (agentSuspStart.setGenState 0 (some GeneratorState.Completed),
        Except.error (JsError.thrown (Value.mk 3))) ∧
    (agentSuspStart.setGenState 0 (some GeneratorState.Completed)).getGen 0 =
      some { dataSuspStart with generator_state := some GeneratorState.Completed } ∧
    (∀ o2 : VmOracle, Generator.resume_throw o2 0 agentSuspStart (Value.mk 3) =
      Generator.resume_throw o0 0 agentSuspStart (Value.mk 3)) ∧
    (∀ (o2 : VmOracle) (v2 : Value),
      Generator.resume o2 0 (agentSuspStart.setGenState 0
          (some GeneratorState.Completed)) v2 =
        some (agentSuspStart.setGenState 0 (some GeneratorState.Completed),
          Except.ok (create_iter_result_object Value.undefined true))) :=
  claim3_resume_throw_suspended_start o0 agentSuspStart 0 dataSuspStart
    [Value.mk 42] exe0 ctx0 (Value.mk 3) rfl rfl

/-- Claim C4 counterexample: in the Executing state both entry points fail
with a TypeError, but its static message is "The generator is currently
running", not "generator is currently running" as the claim states. -/
theorem claim4_counterexample :
    Generator.resume o0 0 agentExec Value.undefined =
      some (agentExec,
        Except.error (JsError.typeError "The generator is currently running")) ∧
    Generator.resume_throw o0 0 agentExec Value.undefined =
      some (agentExec,
        Except.error (JsError.typeError "The generator is currently running")) ∧
    "The generator is currently running" ≠ "generator is currently running" :=
  ⟨by decide, by decide, by decide⟩

/-- Claim C4 (amended): for every generator in the Executing state, both
`resume` and `resume_throw` fail with a TypeError whose message is "The
generator is currently running", and the agent — hence the generator state,
still Executing — is left unchanged. -/
theorem claim4_executing_guard (o : VmOracle) (agent : Agent) (g : Generator)
    (data : GeneratorHeapData) (v v2 : Value)
    (h1 : agent.getGen g = some data)
    (h2 : data.generator_state = some GeneratorState.Executing) :
    Generator.resume o g agent v =
      some (agent,
        Except.error (JsError.typeError "The generator is currently running")) ∧
    Generator.resume_throw o g agent v2 =
      some (agent,
        Except.error (JsError.typeError "The generator is currently running")) := by
  constructor
  · simp only [Generator.resume, h1, h2]
  · simp only [Generator.resume_throw, h1, h2]

/-- Claim C4 witness. -/
theorem claim4_witness :
    Generator.resume o0 0 agentExec Value.undefined =
      some (agentExec,
        Except.error (JsError.typeError "The generator is currently running")) ∧
    Generator.resume_throw o0 0 agentExec (Value.mk 1) =
      some (agentExec,
        Except.error (JsError.typeError "The generator is currently running")) :=
  claim4_executing_guard o0 agentExec 0 dataExec Value.undefined (Value.mk 1)
    rfl rfl

/-- Claim C5: the Completed state is terminal and absorbing: `resume` returns
the iterator result with value undefined and done true for any value,
`resume_throw` returns its argument as a thrown error, and in both cases the
agent — hence the generator state, still Completed — is unchanged. -/
theorem claim5_completed_absorbing (o : VmOracle) (agent : Agent)
    (g : Generator) (data : GeneratorHeapData) (v v2 : Value)
    (h1 : agent.getGen g = some data)
    (h2 : data.generator_state = some GeneratorState.Completed) :
    Generator.resume o g agent v =
      some (agent, Except.ok (create_iter_result_object Value.undefined true)) ∧
    Generator.resume_throw o g agent v2 =
      some (agent, Except.error (JsError.thrown v2)) := by
  constructor
  · simp only [Generator.resume, h1, h2]
  · simp only [Generator.resume_throw, h1, h2]

/-- Claim C5 witness. -/
theorem claim5_witness :
    Generator.resume o0 0 agentCompleted (Value.mk 8) =
      some (agentCompleted,
        Except.ok (create_iter_result_object Value.undefined true)) ∧
    Generator.resume_throw o0 0 agentCompleted (Value.mk 9) =
      some (agentCompleted, Except.error (JsError.thrown (Value.mk 9))) :=
  claim5_completed_absorbing o0 agentCompleted 0 dataCompleted (Value.mk 8)
    (Value.mk 9) rfl rfl

/-- Claim C7, evaluated at the failing input (a generator function invoked
with arguments list `[42]`): `evaluate_generator_body` stores the
suspended-start state `Suspended { vm: None, executable, execution_context }`,
which holds no VM snapshot and no arguments list — the invocation arguments do
not flow into the stored generator state, and the shape is not the
`Suspended(Arguments(args))` record the claim (and generator_objects.rs)
require. -/
theorem claim7_entry_state_drops_arguments :
    evaluate_generator_body_state exe0 ctx0 [Value.mk 42] =
      FdGeneratorState.Suspended none exe0 ctx0 ∧
    ∀ (exe : Executable) (ctx : ExecutionContext) (args : List Value),
      evaluate_generator_body_state exe ctx args =
        evaluate_generator_body_state exe ctx [] :=
  ⟨rfl, fun _ _ _ => rfl⟩

/-- Claim C10: for a generator in the suspended-start state the value argument
of `resume` is discarded: any two values produce the same result and the same
final agent. -/
theorem claim10_start_resume_value_independent (o : VmOracle) (agent : Agent)
    (g : Generator) (data : GeneratorHeapData) (args : List Value)
    (exe : Executable) (ctx : ExecutionContext) (v1 v2 : Value)
    (h1 : agent.getGen g = some data)
    (h2 : data.generator_state = some (GeneratorState.Suspended
      { vm_or_args := VmOrArguments.Arguments args, executable := exe,
        execution_context := ctx })) :
    Generator.resume o g agent v1 = Generator.resume o g agent v2 := by
  simp only [Generator.resume, h1, h2, Agent.enterExecuting, dispatchCall]

/-- Claim C10 witness. -/
theorem claim10_witness :
    Generator.resume oYield 0 agentSuspStart (Value.mk 1) =
      Generator.resume oYield 0 agentSuspStart (Value.mk 2) :=
  claim10_start_resume_value_independent oYield agentSuspStart 0 dataSuspStart
    [Value.mk 42] exe0 ctx0 (Value.mk 1) (Value.mk 2) rfl rfl

/-- Claim C8: under any suspended state, when the VM reports an `Await` the
dispatcher aborts fatally (`none`, the model of the `unreachable!` panic)
rather than continuing, in both `resume` and `resume_throw`. -/
theorem claim8_await_is_fatal (o : VmOracle) (agent : Agent) (g : Generator)
    (data : GeneratorHeapData) (voa : VmOrArguments) (exe : Executable)
    (ctx : ExecutionContext) (value : Value)
    (h1 : agent.getGen g = some data)
    (h2 : data.generator_state = some (GeneratorState.Suspended
      { vm_or_args := voa, executable := exe, execution_context := ctx })) :
    (∀ vm v, dispatchCall o voa exe value = ExecutionResult.Await vm v →
      Generator.resume o g agent value = none) ∧
    (∀ vm vm2 v, voa = VmOrArguments.Vm vm →
      o.resumeThrow vm exe value = ExecutionResult.Await vm2 v →
      Generator.resume_throw o g agent value = none) := by
  constructor
  · intro vm v hr
    simp only [Generator.resume, h1, h2, Agent.enterExecuting, hr,
      Agent.finishResume, Agent.pushCtx]
  · intro vm vm2 v hvoa hr
    subst hvoa
    simp only [Generator.resume_throw, h1, h2, Agent.enterExecutingVm, hr,
      Agent.finishResume, Agent.pushCtx]

/-- Claim C8 witness. -/
theorem claim8_witness :
    (∀ vm v,
      dispatchCall oAwait recYield.vm_or_args exe0 Value.undefined =
        ExecutionResult.Await vm v →
      Generator.resume oAwait 0 agentSuspYield Value.undefined = none) ∧
    (∀ vm vm2 v, recYield.vm_or_args = VmOrArguments.Vm vm →
      oAwait.resumeThrow vm exe0 Value.undefined = ExecutionResult.Await vm2 v →
      Generator.resume_throw oAwait 0 agentSuspYield Value.undefined = none) :=
  claim8_await_is_fatal oAwait agentSuspYield 0 dataSuspYield
    recYield.vm_or_args exe0 ctx0 Value.undefined rfl rfl

/-- Claim C1: for every suspended generator reaching the VM, the dispatcher
encodes the ExecutionResult exactly as the fan-out: `Return(v)` sets the state
to Completed and returns the iterator result with value `v` and done true;
`Throw(e)` sets the state to Completed and surfaces `e` as the error;
`Yield(vm, v)` sets the state to `Suspended(Vm(vm))` with the same executable
and with the execution context that was popped from the agent stack stored
back into the record (the context captured in the old record), and returns the
iterator result with value `v` and done false. The same fan-out holds for
`resume_throw`, whose VM path requires the suspended-yield sub-state. -/
theorem claim1_execution_result_fanout (o : VmOracle) (agent : Agent)
    (g : Generator) (data : GeneratorHeapData) (voa : VmOrArguments)
    (exe : Executable) (ctx : ExecutionContext) (value : Value)
    (h1 : agent.getGen g = some data)
    (h2 : data.generator_state = some (GeneratorState.Suspended
      { vm_or_args := voa, executable := exe, execution_context := ctx })) :
    (∀ v, dispatchCall o voa exe value = ExecutionResult.Return v →
      Generator.resume o g agent value =
        some (agent.setGenState g (some GeneratorState.Completed),
          Except.ok (create_iter_result_object v true))) ∧
    (∀ e, dispatchCall o voa exe value = ExecutionResult.Throw e →
      Generator.resume o g agent value =
        some (agent.setGenState g (some GeneratorState.Completed),
          Except.error e)) ∧
    (∀ vm v, dispatchCall o voa exe value = ExecutionResult.Yield vm v →
      Generator.resume o g agent value =
        some (agent.setGenState g (some (GeneratorState.Suspended
          { vm_or_args := VmOrArguments.Vm vm, executable := exe,
            execution_context := ctx })),
          Except.ok (create_iter_result_object v false))) ∧
    (∀ vm0 : SuspendedVm, voa = VmOrArguments.Vm vm0 →
      (∀ v, o.resumeThrow vm0 exe value = ExecutionResult.Return v →
        Generator.resume_throw o g agent value =
          some (agent.setGenState g (some GeneratorState.Completed),
            Except.ok (create_iter_result_object v true))) ∧
      (∀ e, o.resumeThrow vm0 exe value = ExecutionResult.Throw e →
        Generator.resume_throw o g agent value =
          some (agent.setGenState g (some GeneratorState.Completed),
            Except.error e)) ∧
      (∀ vm v, o.resumeThrow vm0 exe value = ExecutionResult.Yield vm v →
        Generator.resume_throw o g agent value =
          some (agent.setGenState g (some (GeneratorState.Suspended
            { vm_or_args := VmOrArguments.Vm vm, executable := exe,
              execution_context := ctx })),
            Except.ok (create_iter_result_object v false)))) := by
  have hcomp := Agent.setGenState_setGenState h1
  refine ⟨?_, ?_, ?_, ?_⟩
  · intro v hr
    simp only [Generator.resume, h1, h2, Agent.enterExecuting, hr,
      Agent.finishResume, Agent.pushCtx, Agent.setGenState_stack,
      Agent.mk_generators_stack, hcomp]
  · intro e hr
    simp only [Generator.resume, h1, h2, Agent.enterExecuting, hr,
      Agent.finishResume, Agent.pushCtx, Agent.setGenState_stack,
      Agent.mk_generators_stack, hcomp]
  · intro vm v hr
    simp only [Generator.resume, h1, h2, Agent.enterExecuting, hr,
      Agent.finishResume, Agent.pushCtx, Agent.setGenState_stack,
      Agent.mk_generators_stack, hcomp]
  · intro vm0 hvoa
    subst hvoa
    refine ⟨?_, ?_, ?_⟩
    · intro v hr
      simp only [Generator.resume_throw, h1, h2, Agent.enterExecutingVm, hr,
        Agent.finishResume, Agent.pushCtx, Agent.setGenState_stack,
      Agent.mk_generators_stack, hcomp]
    · intro e hr
      simp only [Generator.resume_throw, h1, h2, Agent.enterExecutingVm, hr,
        Agent.finishResume, Agent.pushCtx, Agent.setGenState_stack,
      Agent.mk_generators_stack, hcomp]
    · intro vm v hr
      simp only [Generator.resume_throw, h1, h2, Agent.enterExecutingVm, hr,
        Agent.finishResume, Agent.pushCtx, Agent.setGenState_stack,
      Agent.mk_generators_stack, hcomp]

/-- Claim C1 witness. -/
theorem claim1_witness :
    (∀ v, dispatchCall o0 recYield.vm_or_args exe0 Value.undefined =
        ExecutionResult.Return v →
      Generator.resume o0 0 agentSuspYield Value.undefined =
        some (agentSuspYield.setGenState 0 (some GeneratorState.Completed),
          Except.ok (create_iter_result_object v true))) ∧
    (∀ e, dispatchCall o0 recYield.vm_or_args exe0 Value.undefined =
        ExecutionResult.Throw e →
      Generator.resume o0 0 agentSuspYield Value.undefined =
        some (agentSuspYield.setGenState 0 (some GeneratorState.Completed),
          Except.error e)) ∧
    (∀ vm v, dispatchCall o0 recYield.vm_or_args exe0 Value.undefined =
        ExecutionResult.Yield vm v →
      Generator.resume o0 0 agentSuspYield Value.undefined =
        some (agentSuspYield.setGenState 0 (some (GeneratorState.Suspended
          { vm_or_args := VmOrArguments.Vm vm, executable := exe0,
            execution_context := ctx0 })),
          Except.ok (create_iter_result_object v false))) ∧
    (∀ vm0 : SuspendedVm, recYield.vm_or_args = VmOrArguments.Vm vm0 →
      (∀ v, o0.resumeThrow vm0 exe0 Value.undefined = ExecutionResult.Return v →
        Generator.resume_throw o0 0 agentSuspYield Value.undefined =
          some (agentSuspYield.setGenState 0 (some GeneratorState.Completed),
            Except.ok (create_iter_result_object v true))) ∧
      (∀ e, o0.resumeThrow vm0 exe0 Value.undefined = ExecutionResult.Throw e →
        Generator.resume_throw o0 0 agentSuspYield Value.undefined =
          some (agentSuspYield.setGenState 0 (some GeneratorState.Completed),
            Except.error e)) ∧
      (∀ vm v, o0.resumeThrow vm0 exe0 Value.undefined =
          ExecutionResult.Yield vm v →
        Generator.resume_throw o0 0 agentSuspYield Value.undefined =
          some (agentSuspYield.setGenState 0 (some (GeneratorState.Suspended
            { vm_or_args := VmOrArguments.Vm vm, executable := exe0,
              execution_context := ctx0 })),
            Except.ok (create_iter_result_object v false)))) :=
  claim1_execution_result_fanout o0 agentSuspYield 0 dataSuspYield
    recYield.vm_or_args exe0 ctx0 Value.undefined rfl rfl

/-- Claim C2: `resume` on a suspended generator dispatches on the suspended
sub-state: for suspended-start (`Arguments`) the VM is started from the entry
point with the stored arguments list, for suspended-yield (`Vm`) the suspended
VM is resumed with the given value; in both cases the call happens in the
agent state where the generator is marked Executing and the captured context
has been pushed, and the outcome is the fan-out of the produced
ExecutionResult. -/
theorem claim2_suspended_substate_dispatch (o : VmOracle) (agent : Agent)
    (g : Generator) (data : GeneratorHeapData) (voa : VmOrArguments)
    (exe : Executable) (ctx : ExecutionContext) (value : Value)
    (h1 : agent.getGen g = some data)
    (h2 : data.generator_state = some (GeneratorState.Suspended
      { vm_or_args := voa, executable := exe, execution_context := ctx })) :
    (∀ args, voa = VmOrArguments.Arguments args →
      Generator.resume o g agent value =
        ((agent.setGenState g (some GeneratorState.Executing)).pushCtx
          ctx).finishResume g exe (o.execute exe args)) ∧
    (∀ vm, voa = VmOrArguments.Vm vm →
      Generator.resume o g agent value =
        ((agent.setGenState g (some GeneratorState.Executing)).pushCtx
          ctx).finishResume g exe (o.resume vm exe value)) := by
  constructor
  · intro args hvoa
    subst hvoa
    simp only [Generator.resume, h1, h2, Agent.enterExecuting, dispatchCall]
  · intro vm hvoa
    subst hvoa
    simp only [Generator.resume, h1, h2, Agent.enterExecuting, dispatchCall]

/-- Claim C2 witness. -/
theorem claim2_witness :
    (∀ args, recStart.vm_or_args = VmOrArguments.Arguments args →
      Generator.resume o0 0 agentSuspStart (Value.mk 5) =
        ((agentSuspStart.setGenState 0 (some GeneratorState.Executing)).pushCtx
          ctx0).finishResume 0 exe0 (o0.execute exe0 args)) ∧
    (∀ vm, recStart.vm_or_args = VmOrArguments.Vm vm →
      Generator.resume o0 0 agentSuspStart (Value.mk 5) =
        ((agentSuspStart.setGenState 0 (some GeneratorState.Executing)).pushCtx
          ctx0).finishResume 0 exe0 (o0.resume vm exe0 (Value.mk 5))) :=
  claim2_suspended_substate_dispatch o0 agentSuspStart 0 dataSuspStart
    recStart.vm_or_args exe0 ctx0 (Value.mk 5) rfl rfl

/-! ### Marking lemmas -/

theorem markOptObject_eq (oi : Option OrdinaryObject) (q : WorkQueues) :
    markOptObject oi q = { q with objects := q.objects ++ oi.toList } := by
  cases oi with
  | none => simp [markOptObject]
  | some o => simp [markOptObject, OrdinaryObject.markValues]

theorem markArgs_eq (args : List Value) (q : WorkQueues) :
    markArgs args q = { q with values := q.values ++ args } := by
  induction args generalizing q with
  | nil => simp [markArgs]
  | cons a as ih =>
    show markArgs as (a.markValues q) = _
    rw [ih]
    simp [Value.markValues]

/-- Claim C9: marking a reachable Generator marks exactly its backing object
and, when the state is Suspended, the record children: the executable, the
captured execution context, and either the suspended VM state or the
arguments list depending on the `vm_or_args` tag; when the state is Executing
or Completed (or still unset) no suspended-record children are marked. -/
theorem claim9_mark_values_exact (d : GeneratorHeapData) (q : WorkQueues) :
    (∀ vm exe ctx, d.generator_state = some (GeneratorState.Suspended
        { vm_or_args := VmOrArguments.Vm vm, executable := exe,
          execution_context := ctx }) →
      d.markValues q =
        { q with
          objects := q.objects ++ d.object_index.toList,
          vms := q.vms ++ [vm],
          executables := q.executables ++ [exe],
          execution_contexts := q.execution_contexts ++ [ctx] }) ∧
    (∀ args exe ctx, d.generator_state = some (GeneratorState.Suspended
        { vm_or_args := VmOrArguments.Arguments args, executable := exe,
          execution_context := ctx }) →
      d.markValues q =
        { q with
          objects := q.objects ++ d.object_index.toList,
          values := q.values ++ args,
          executables := q.executables ++ [exe],
          execution_contexts := q.execution_contexts ++ [ctx] }) ∧
    (d.generator_state = some GeneratorState.Executing →
      d.markValues q = { q with objects := q.objects ++ d.object_index.toList }) ∧
    (d.generator_state = some GeneratorState.Completed →
      d.markValues q = { q with objects := q.objects ++ d.object_index.toList }) ∧
    (d.generator_state = none →
      d.markValues q = { q with objects := q.objects ++ d.object_index.toList }) := by
  refine ⟨?_, ?_, ?_, ?_, ?_⟩
  · intro vm exe ctx h
    simp [GeneratorHeapData.markValues, h, SuspendedGeneratorState.markValues,
      markOptObject_eq, SuspendedVm.markValues, Executable.markValues,
      ExecutionContext.markValues]
  · intro args exe ctx h
    simp [GeneratorHeapData.markValues, h, SuspendedGeneratorState.markValues,
      markOptObject_eq, markArgs_eq, Executable.markValues,
      ExecutionContext.markValues]
  · intro h
    simp [GeneratorHeapData.markValues, h, markOptObject_eq]
  · intro h
    simp [GeneratorHeapData.markValues, h, markOptObject_eq]
  · intro h
    simp [GeneratorHeapData.markValues, h, markOptObject_eq]

/-- Claim C9 witness: the suspended-yield fixture marks exactly its VM,
executable and context (it has no backing object). -/
theorem claim9_witness :
    dataSuspYield.markValues {} =
      { generators := [], vms := [vm0], values := [], executables := [exe0],
        execution_contexts := [ctx0], objects := [] } := by
  have h := (claim9_mark_values_exact dataSuspYield {}).1 vm0 exe0 ctx0 rfl
  simpa using h

/-! ### Context-ownership infrastructure -/

theorem Agent.eta (x : Agent) :
    ({ generators := x.generators,
       execution_context_stack := x.execution_context_stack } : Agent) = x := rfl

theorem Agent.getGen_pushCtx (agent : Agent) (c : ExecutionContext)
    (g : Generator) : (agent.pushCtx c).getGen g = agent.getGen g := rfl

theorem Agent.getGen_setGenState_none {agent : Agent} {g : Generator}
    (h : agent.getGen g = none) (st : Option GeneratorState) :
    (agent.setGenState g st).getGen g = none := by
  unfold Agent.getGen at h
  unfold Agent.setGenState Agent.getGen
  cases hx : agent.generators[g]? with
  | none =>
    have hlen : agent.generators.length ≤ g := by
      rw [← List.getElem?_eq_none_iff]
      exact hx
    simp [List.getElem?_set, hx, Nat.not_lt.mpr hlen]
  | some o =>
    cases o with
    | none => simp [hx, List.getElem?_set_self']
    | some d => rw [hx] at h; cases h

theorem ctxInvariant_setGenState {agent : Agent} {g : Generator}
    {st : Option GeneratorState} (hinv : ctxInvariant agent)
    (h : ∀ s2 : SuspendedGeneratorState,
      st = some (GeneratorState.Suspended s2) →
      s2.execution_context ∉ agent.execution_context_stack) :
    ctxInvariant (agent.setGenState g st) := by
  intro i di si hgi hsi
  rw [Agent.setGenState_stack]
  by_cases hig : g = i
  · subst hig
    cases hd : agent.getGen g with
    | none => rw [Agent.getGen_setGenState_none hd st] at hgi; cases hgi
    | some d0 =>
      rw [Agent.getGen_setGenState_self st hd] at hgi
      injection hgi with hgi
      subst hgi
      exact h si hsi
  · rw [Agent.getGen_setGenState_ne hig st] at hgi
    exact hinv i di si hgi hsi

/-- The final agent of a successful `resume` is the input agent (early exit),
or the input with the generator set to Completed, or — on the yield edge —
the input with the generator set to the suspended record rebuilt around the
new VM, keeping the executable and the captured context. -/
theorem resume_final_agent {o : VmOracle} {g : Generator} {agent a2 : Agent}
    {v : Value} {r : Except JsError Object}
    (h : Generator.resume o g agent v = some (a2, r)) :
    a2 = agent ∨
    ∃ data s, agent.getGen g = some data ∧
      data.generator_state = some (GeneratorState.Suspended s) ∧
      (a2 = agent.setGenState g (some GeneratorState.Completed) ∨
       ∃ vm, a2 = agent.setGenState g (some (GeneratorState.Suspended
         { s with vm_or_args := VmOrArguments.Vm vm }))) := by
  unfold Generator.resume at h
  cases hg : agent.getGen g with
  | none => rw [hg] at h; exact Option.noConfusion h
  | some data =>
    simp only [hg] at h
    cases hs : data.generator_state with
    | none => simp only [hs] at h; exact Option.noConfusion h
    | some st =>
      simp only [hs] at h
      cases st with
      | Executing =>
        simp only [Option.some_inj, Prod.mk.injEq] at h
        exact Or.inl h.1.symm
      | Completed =>
        simp only [Option.some_inj, Prod.mk.injEq] at h
        exact Or.inl h.1.symm
      | Suspended s =>
        right
        refine ⟨data, s, rfl, hs, ?_⟩
        have he : agent.enterExecuting g =
            some ((agent.setGenState g (some GeneratorState.Executing)).pushCtx
              s.execution_context, s) := by
          simp only [Agent.enterExecuting, hg, hs]
        rw [he] at h
        simp only [Agent.finishResume, Agent.pushCtx] at h
        have hcomp := Agent.setGenState_setGenState hg
        cases hd : dispatchCall o s.vm_or_args s.executable v with
        | Return rv =>
          rw [hd] at h
          simp only [Option.some_inj, Prod.mk.injEq] at h
          left
          rw [← h.1, Agent.eta, hcomp]
        | Throw e =>
          rw [hd] at h
          simp only [Option.some_inj, Prod.mk.injEq] at h
          left
          rw [← h.1, Agent.eta, hcomp]
        | Yield vm yv =>
          rw [hd] at h
          simp only [Option.some_inj, Prod.mk.injEq] at h
          right
          exact ⟨vm, by rw [← h.1, Agent.eta, hcomp]⟩
        | Await vm av => rw [hd] at h; exact Option.noConfusion h

/-- The final agent of a successful `resume_throw`, in the same three
shapes. -/
theorem resume_throw_final_agent {o : VmOracle} {g : Generator}
    {agent a2 : Agent} {v : Value} {r : Except JsError Object}
    (h : Generator.resume_throw o g agent v = some (a2, r)) :
    a2 = agent ∨
    ∃ data s, agent.getGen g = some data ∧
      data.generator_state = some (GeneratorState.Suspended s) ∧
      (a2 = agent.setGenState g (some GeneratorState.Completed) ∨
       ∃ vm, a2 = agent.setGenState g (some (GeneratorState.Suspended
         { s with vm_or_args := VmOrArguments.Vm vm }))) := by
  unfold Generator.resume_throw at h
  cases hg : agent.getGen g with
  | none => rw [hg] at h; exact Option.noConfusion h
  | some data =>
    simp only [hg] at h
    cases hs : data.generator_state with
    | none => simp only [hs] at h; exact Option.noConfusion h
    | some st =>
      simp only [hs] at h
      cases st with
      | Executing =>
        simp only [Option.some_inj, Prod.mk.injEq] at h
        exact Or.inl h.1.symm
      | Completed =>
        simp only [Option.some_inj, Prod.mk.injEq] at h
        exact Or.inl h.1.symm
      | Suspended s =>
        right
        obtain ⟨voa, exe, ctx⟩ := s
        cases voa with
        | Arguments args =>
          simp only [Option.some_inj, Prod.mk.injEq] at h
          exact ⟨data, _, rfl, hs, Or.inl h.1.symm⟩
        | Vm vm0 =>
          refine ⟨data, _, rfl, hs, ?_⟩
          have he : agent.enterExecutingVm g =
              some ((agent.setGenState g
                (some GeneratorState.Executing)).pushCtx ctx, vm0, exe) := by
            simp only [Agent.enterExecutingVm, hg, hs]
          rw [he] at h
          simp only [Agent.finishResume, Agent.pushCtx] at h
          have hcomp := Agent.setGenState_setGenState hg
          cases hd : o.resumeThrow vm0 exe v with
          | Return rv =>
            rw [hd] at h
            simp only [Option.some_inj, Prod.mk.injEq] at h
            left
            rw [← h.1, Agent.eta, hcomp]
          | Throw e =>
            rw [hd] at h
            simp only [Option.some_inj, Prod.mk.injEq] at h
            left
            rw [← h.1, Agent.eta, hcomp]
          | Yield vm yv =>
            rw [hd] at h
            simp only [Option.some_inj, Prod.mk.injEq] at h
            right
            exact ⟨vm, by rw [← h.1, Agent.eta, hcomp]⟩
          | Await vm av => rw [hd] at h; exact Option.noConfusion h

theorem ctxInvariant_resume {o : VmOracle} {g : Generator} {agent a2 : Agent}
    {v : Value} {r : Except JsError Object} (hinv : ctxInvariant agent)
    (h : Generator.resume o g agent v = some (a2, r)) : ctxInvariant a2 := by
  rcases resume_final_agent h with rfl | ⟨data, s, hg, hs, hcase⟩
  · exact hinv
  · rcases hcase with rfl | ⟨vm, rfl⟩
    · exact ctxInvariant_setGenState hinv (fun s2 hs2 => by cases hs2)
    · refine ctxInvariant_setGenState hinv (fun s2 hs2 => ?_)
      injection hs2 with hs2
      injection hs2 with hs2
      subst hs2
      exact hinv g data s hg hs

theorem ctxInvariant_resume_throw {o : VmOracle} {g : Generator}
    {agent a2 : Agent} {v : Value} {r : Except JsError Object}
    (hinv : ctxInvariant agent)
    (h : Generator.resume_throw o g agent v = some (a2, r)) :
    ctxInvariant a2 := by
  rcases resume_throw_final_agent h with rfl | ⟨data, s, hg, hs, hcase⟩
  · exact hinv
  · rcases hcase with rfl | ⟨vm, rfl⟩
    · exact ctxInvariant_setGenState hinv (fun s2 hs2 => by cases hs2)
    · refine ctxInvariant_setGenState hinv (fun s2 hs2 => ?_)
      injection hs2 with hs2
      injection hs2 with hs2
      subst hs2
      exact hinv g data s hg hs

theorem ctxInvariant_runCalls {o : VmOracle} {agent a2 : Agent}
    {calls : List GenCall} (hinv : ctxInvariant agent)
    (h : runCalls o agent calls = some a2) : ctxInvariant a2 := by
  induction calls generalizing agent with
  | nil =>
    unfold runCalls at h
    injection h with h
    subst h
    exact hinv
  | cons c rest ih =>
    unfold runCalls at h
    by_cases hb : c.isThrow
    · simp only [hb, if_true] at h
      cases hc : Generator.resume_throw o c.gen agent c.value with
      | none => rw [hc] at h; exact Option.noConfusion h
      | some p =>
        obtain ⟨a1, res⟩ := p
        rw [hc] at h
        exact ih (ctxInvariant_resume_throw hinv hc) h
    · simp only [hb, if_false] at h
      cases hc : Generator.resume o c.gen agent c.value with
      | none => rw [hc] at h; exact Option.noConfusion h
      | some p =>
        obtain ⟨a1, res⟩ := p
        rw [hc] at h
        exact ih (ctxInvariant_resume hinv hc) h

/-- Claim C6: context ownership. First, on the resume edge of any suspended
generator the swap-and-push phase moves the captured context from the record
to the stack: afterwards the generator state is Executing (the record no
longer holds the context) and that very context sits on top of the agent
execution-context stack. Second, on the yield edge the context that was
popped from the stack — the captured one — is stored back into the record,
so the new record carries the same context object. Third, the ownership
invariant (no suspended record captures a context that is on the stack) is
preserved by every sequence of `resume`/`resume_throw` calls. -/
theorem claim6_context_ownership (o : VmOracle) (agent : Agent) :
    (∀ g data s, agent.getGen g = some data →
      data.generator_state = some (GeneratorState.Suspended s) →
      agent.enterExecuting g =
        some ((agent.setGenState g (some GeneratorState.Executing)).pushCtx
          s.execution_context, s) ∧
      ((agent.setGenState g (some GeneratorState.Executing)).pushCtx
        s.execution_context).execution_context_stack =
        s.execution_context :: agent.execution_context_stack ∧
      ((agent.setGenState g (some GeneratorState.Executing)).pushCtx
        s.execution_context).getGen g =
        some { data with generator_state := some GeneratorState.Executing }) ∧
    (∀ g data s value vm yv, agent.getGen g = some data →
      data.generator_state = some (GeneratorState.Suspended s) →
      dispatchCall o s.vm_or_args s.executable value =
        ExecutionResult.Yield vm yv →
      Generator.resume o g agent value =
        some (agent.setGenState g (some (GeneratorState.Suspended
          { s with vm_or_args := VmOrArguments.Vm vm })),
          Except.ok (create_iter_result_object yv false))) ∧
    (∀ calls a2, ctxInvariant agent → runCalls o agent calls = some a2 →
      ctxInvariant a2) := by
  refine ⟨?_, ?_, ?_⟩
  · intro g data s h1 h2
    refine ⟨?_, rfl, ?_⟩
    · simp only [Agent.enterExecuting, h1, h2]
    · rw [Agent.getGen_pushCtx]
      exact Agent.getGen_setGenState_self (some GeneratorState.Executing) h1
  · intro g data s value vm yv h1 h2 hr
    have hcomp := Agent.setGenState_setGenState h1
    simp only [Generator.resume, h1, h2, Agent.enterExecuting, hr,
      Agent.finishResume, Agent.pushCtx, Agent.setGenState_stack,
      Agent.mk_generators_stack, Agent.eta, hcomp]
  · intro calls a2 hinv h
    exact ctxInvariant_runCalls hinv h

/-- Claim C6 witness. -/
theorem claim6_witness :
    (∀ g data s, agentSuspStart.getGen g = some data →
      data.generator_state = some (GeneratorState.Suspended s) →
      agentSuspStart.enterExecuting g =
        some ((agentSuspStart.setGenState g
          (some GeneratorState.Executing)).pushCtx s.execution_context, s) ∧
      ((agentSuspStart.setGenState g (some GeneratorState.Executing)).pushCtx
        s.execution_context).execution_context_stack =
        s.execution_context :: agentSuspStart.execution_context_stack ∧
      ((agentSuspStart.setGenState g (some GeneratorState.Executing)).pushCtx
        s.execution_context).getGen g =
        some { data with generator_state := some GeneratorState.Executing }) ∧
    (∀ g data s value vm yv, agentSuspStart.getGen g = some data →
      data.generator_state = some (GeneratorState.Suspended s) →
      dispatchCall o0 s.vm_or_args s.executable value =
        ExecutionResult.Yield vm yv →
      Generator.resume o0 g agentSuspStart value =
        some (agentSuspStart.setGenState g (some (GeneratorState.Suspended
          { s with vm_or_args := VmOrArguments.Vm vm })),
          Except.ok (create_iter_result_object yv false))) ∧
    (∀ calls a2, ctxInvariant agentSuspStart →
      runCalls o0 agentSuspStart calls = some a2 → ctxInvariant a2) :=
  claim6_context_ownership o0 agentSuspStart

end Nova
